import Mathlib

/-!
Shallow embedding of `src/app/exchange_rate_server.py` (fx_rate_app).

Modelling conventions:
* Numeric rates and amounts are `ℚ` (the code uses Python floats; the claims
  under verification are structural, not about binary rounding).
* Wall-clock instants are `ℕ` seconds for cache arithmetic; formatted
  date/timestamp strings are passed in as parameters (`today`, `fmt`, ...).
* Each upstream HTTP interaction is abstracted by a `ProviderResponse` /
  `HistResponse` value describing exactly what the Python code observes of it
  (status, parsed JSON shape, or the exception class raised).
* Python dicts become association lists or functions to `Option`;
  `dict.get(k)` returning `None` becomes an `Option` lookup; the truthiness
  test `if rate:` becomes `r ≠ 0` on a present rate.
* `random.random()` draws are supplied as an explicit stream `vs : ℕ → ℚ` of
  values in `[0, 1)`, and `random.uniform(0.8, 1.2)` as `0.8 + 0.4 * u`.
-/

/-- `EXCHANGE_RATE_APIS` entry (lines 14-36): provider descriptor. -/
structure ApiConfig where
  name : String
  url : String
  requires_key : Bool
  rate_limit : Nat
  timeout : Nat
deriving DecidableEq, Repr

/-- The ordered provider list `EXCHANGE_RATE_APIS` (lines 14-36). -/
def EXCHANGE_RATE_APIS : List ApiConfig :=
  [ ⟨"ExchangeRate-API", "https://api.exchangerate-api.com/v4/latest/\x7bbase\x7d",
      false, 1500, 10⟩,
    ⟨"Frankfurter", "https://api.frankfurter.app/latest?from=\x7bbase\x7d&to=\x7btarget\x7d",
      false, 1000, 10⟩,
    ⟨"OpenExchangeRates", "https://open.er-api.com/v6/latest/\x7bbase\x7d",
      false, 1500, 10⟩ ]

/-- One entry of `CURRENCY_DATA` (lines 39-60). -/
structure CurrencyInfo where
  name : String
  flag : String
deriving DecidableEq, Repr

/-- The currency registry `CURRENCY_DATA` (lines 39-60). -/
def CURRENCY_DATA : List (String × CurrencyInfo) :=
  [ ("USD", ⟨"United States Dollar", "🇺🇸"⟩),
    ("EUR", ⟨"Euro", "🇪🇺"⟩),
    ("GBP", ⟨"British Pound", "🇬🇧"⟩),
    ("JPY", ⟨"Japanese Yen", "🇯🇵"⟩),
    ("CNY", ⟨"Chinese Yuan", "🇨🇳"⟩),
    ("CAD", ⟨"Canadian Dollar", "🇨🇦"⟩),
    ("AUD", ⟨"Australian Dollar", "🇦🇺"⟩),
    ("CHF", ⟨"Swiss Franc", "🇨🇭"⟩),
    ("HKD", ⟨"Hong Kong Dollar", "🇭🇰"⟩),
    ("SGD", ⟨"Singapore Dollar", "🇸🇬"⟩),
    ("KRW", ⟨"South Korean Won", "🇰🇷"⟩),
    ("INR", ⟨"Indian Rupee", "🇮🇳"⟩),
    ("RUB", ⟨"Russian Ruble", "🇷🇺"⟩),
    ("BRL", ⟨"Brazilian Real", "🇧🇷"⟩),
    ("MXN", ⟨"Mexican Peso", "🇲🇽"⟩),
    ("AED", ⟨"UAE Dirham", "🇦🇪"⟩),
    ("TRY", ⟨"Turkish Lira", "🇹🇷"⟩),
    ("ZAR", ⟨"South African Rand", "🇿🇦"⟩),
    ("SEK", ⟨"Swedish Krona", "🇸🇪"⟩),
    ("NZD", ⟨"New Zealand Dollar", "🇳🇿"⟩) ]

/-- Python `str.upper()` on query parameters (lines 238-239, 320-321,
377-378): uppercase each character. -/
def pyUpper (s : String) : String := String.mk (s.data.map Char.toUpper)

/-- `CACHE_DURATION = 300` (line 64). -/
def CACHE_DURATION : Nat := 300

/-- One value of the `exchange_rate_cache` dict (lines 79-83). -/
structure CacheEntry where
  rate : ℚ
  source : String
  timestamp : Nat
deriving DecidableEq, Repr

/-- The cache dict `exchange_rate_cache` (line 63), as a map from key strings
to entries. -/
abbrev Cache := String → Option CacheEntry

/-- `f"{base_currency}_{target_currency}"` (lines 68, 78). -/
def cacheKey (base_currency target_currency : String) : String :=
  base_currency ++ "_" ++ target_currency

/-- `get_cached_rate` (lines 66-74): return (rate, source) when the key is
present and `now - timestamp < CACHE_DURATION`, else nothing.  The read does
not modify the cache (the Python code only reads the dict). -/
def get_cached_rate (cache : Cache) (now : Nat)
    (base_currency target_currency : String) : Option (ℚ × String) :=
  match cache (cacheKey base_currency target_currency) with
  | some cached_data =>
      if now - cached_data.timestamp < CACHE_DURATION then
        some (cached_data.rate, cached_data.source)
      else none
  | none => none

/-- `set_cached_rate` (lines 76-83): unconditional dict assignment with the
current time as timestamp. -/
def set_cached_rate (cache : Cache) (now : Nat)
    (base_currency target_currency : String) (rate : ℚ) (source : String) :
    Cache :=
  fun k =>
    if k = cacheKey base_currency target_currency then
      some ⟨rate, source, now⟩
    else cache k

/-- What the Python code observes of one provider HTTP call
(lines 98-131): either an exception class, a non-200 status, or a parsed
JSON body.  `ok rates date` is a 200 response whose JSON decoded: `rates`
models `data.get('rates', \x7b\x7d)` (entries with value `none` model JSON
`null`), `date` models `data.get('date')`. -/
inductive ProviderResponse where
  | timeout
  | connError
  | reqExn (msg : String)
  | badJson
  | httpStatus (code : Nat)
  | ok (rates : List (String × Option ℚ)) (date : Option String)
deriving DecidableEq, Repr

/-- `data.get('rates', \x7b\x7d).get(target_currency)` (lines 104-108). -/
def lookupRate (rates : List (String × Option ℚ)) (target_currency : String) :
    Option ℚ :=
  match rates.lookup target_currency with
  | some v => v
  | none => none

/-- Result dict of a successful fetch (lines 112-116 and 135-139). -/
structure ApiResult where
  rate : ℚ
  date : String
  source : String
deriving DecidableEq, Repr

/-- One iteration of the provider loop body (lines 90-131): either the
success dict returned at line 112, or the diagnostic string appended to
`errors`.  `today` is `datetime.now().strftime('%Y-%m-%d')`.  Note line 110
tests `if rate:` — Python truthiness — so a present rate equal to `0` is
treated like a missing one. -/
def tryProvider (name : String) (target_currency today : String) :
    ProviderResponse → Except String ApiResult
  | .timeout => .error (name ++ ": 请求超时")
  | .connError => .error (name ++ ": 连接错误")
  | .reqExn msg => .error (name ++ ": " ++ msg)
  | .badJson => .error (name ++ ": 响应格式错误")
  | .httpStatus code => .error (name ++ ": HTTP " ++ toString code)
  | .ok rates date =>
      match lookupRate rates target_currency with
      | some rate =>
          if rate ≠ 0 then
            .ok ⟨rate, date.getD today, name⟩
          else .error (name ++ ": 未找到汇率数据")
      | none => .error (name ++ ": 未找到汇率数据")

/-- The `for api_config in EXCHANGE_RATE_APIS` loop (lines 89-131), with the
`errors` accumulator: stops at the first provider whose response yields a
truthy rate, otherwise records the diagnostic and continues. -/
def fetchLoop (target_currency today : String) :
    List (String × ProviderResponse) → List String →
    Option ApiResult × List String
  | [], errors => (none, errors)
  | p :: rest, errors =>
      match tryProvider p.1 target_currency today p.2 with
      | .ok a => (some a, errors)
      | .error e => fetchLoop target_currency today rest (errors ++ [e])

/-- Names of the configured providers, in priority order. -/
def apiNames : List String := EXCHANGE_RATE_APIS.map ApiConfig.name

/-- `get_exchange_rate_from_api` (lines 85-141): run the provider loop; if
every provider failed, return the demo fallback for exactly (USD, CNY)
(lines 134-139) and `None` for every other pair (line 141).  `rs` supplies
each provider's observed response, positionally. -/
def get_exchange_rate_from_api (base_currency target_currency today : String)
    (rs : List ProviderResponse) : Option ApiResult :=
  match (fetchLoop target_currency today (apiNames.zip rs) []).1 with
  | some a => some a
  | none =>
      if base_currency = "USD" ∧ target_currency = "CNY" then
        some ⟨699/100, today, "默认汇率(演示)"⟩
      else none

/-- The `errors` diagnostics list as it stands when the loop of
`get_exchange_rate_from_api` finishes. -/
def get_exchange_rate_errors (target_currency today : String)
    (rs : List ProviderResponse) : List String :=
  (fetchLoop target_currency today (apiNames.zip rs) []).2

example :
    get_exchange_rate_from_api "USD" "CNY" "2026-10-12"
      [.timeout, .httpStatus 500, .badJson] =
    some ⟨699/100, "2026-10-12", "默认汇率(演示)"⟩ := rfl

example :
    get_exchange_rate_from_api "EUR" "GBP" "2026-10-12"
      [.timeout, .httpStatus 500, .badJson] = none := by decide

example :
    get_exchange_rate_from_api "EUR" "GBP" "2026-10-12"
      [.timeout, .ok [("GBP", some 2)] (some "2026-10-11"), .badJson] =
    some ⟨2, "2026-10-11", "Frankfurter"⟩ := by decide

example :
    get_exchange_rate_errors "GBP" "2026-10-12"
      [.timeout, .httpStatus 404, .badJson] =
    ["ExchangeRate-API: 请求超时", "Frankfurter: HTTP 404",
     "OpenExchangeRates: 响应格式错误"] := by decide

/-- Python `round(q, 4)` on exact values: round half to even at the fourth
decimal (lines 172 and 215). -/
def pyRoundInt (q : ℚ) : ℤ :=
  if q - ⌊q⌋ < 1/2 then ⌊q⌋
  else if q - ⌊q⌋ > 1/2 then ⌊q⌋ + 1
  else if ⌊q⌋ % 2 = 0 then ⌊q⌋ else ⌊q⌋ + 1

/-- `round(q, 4)` (lines 172, 215). -/
def round4 (q : ℚ) : ℚ := (pyRoundInt (q * 10000) : ℚ) / 10000

/-- One element of the history list (lines 170-174 and 213-217). -/
structure HistPoint where
  date : String
  rate : ℚ
  timestamp : String
deriving DecidableEq, Repr

/-- The sort key relation of `history.sort(key=lambda x: x['date'])`
(line 177). -/
def histLe (a b : HistPoint) : Prop := a.date ≤ b.date

instance : DecidableRel histLe :=
  fun a b => inferInstanceAs (Decidable (a.date ≤ b.date))

instance : IsTotal HistPoint histLe := ⟨fun a b => le_total a.date b.date⟩

instance : IsTrans HistPoint histLe := ⟨fun _ _ _ h1 h2 => le_trans h1 h2⟩

/-- What the code observes of the Frankfurter range request
(lines 156-163): an exception or non-200 status (`failure`), a JSON body
without a `rates` field, or the date-keyed rate map `data['rates']`. -/
inductive HistResponse where
  | failure
  | noRatesField
  | ok (rates : List (String × List (String × ℚ)))
deriving DecidableEq, Repr

/-- `get_historical_data_from_api` (lines 143-187): keep the dates whose rate
map contains the target currency, round each kept rate to 4 decimals, and
sort ascending by date string; `None` on any request failure or missing
`rates` field. -/
def get_historical_data_from_api (base_currency target_currency : String)
    (days : Int) (resp : HistResponse) : Option (List HistPoint) :=
  match resp with
  | .failure => none
  | .noRatesField => none
  | .ok rates =>
      let history := rates.filterMap fun p =>
        match p.2.lookup target_currency with
        | some r => some ⟨p.1, round4 r, p.1 ++ " 12:00:00"⟩
        | none => none
      some (List.insertionSort histLe history)

/-- `(random.random() - 0.5) * 0.05` for the k-th draw (line 209). -/
def deltaOf (vs : Nat → ℚ) (k : Nat) : ℚ := (vs k - 1/2) * (1/20)

/-- The unrounded running rate of the synthetic walk after k+1 steps:
`rate = base_rate + variation; base_rate = rate` (lines 210-211). -/
def rawRate (b : ℚ) (vs : Nat → ℚ) : Nat → ℚ
  | 0 => b + deltaOf vs 0
  | k + 1 => rawRate b vs k + deltaOf vs (k + 1)

/-- The `for i in range(days, -1, -1)` loop body of the synthetic fallback
(lines 206-217), over an explicit list of (date, draw) pairs; the running
base is threaded unrounded, the emitted rate is rounded to 4 decimals. -/
def synthPoints (fmt tfmt : Int → String) : ℚ → List (Int × ℚ) → List HistPoint
  | _, [] => []
  | b, p :: rest =>
      ⟨fmt p.1, round4 (b + (p.2 - 1/2) * (1/20)), tfmt p.1⟩ ::
        synthPoints fmt tfmt (b + (p.2 - 1/2) * (1/20)) rest

/-- The seed of the synthetic walk (line 201): `6.99` for exactly
(USD, CNY), else `random.uniform(0.8, 1.2) = 0.8 + 0.4 * u` with
`u = random.random()`. -/
def synthSeed (base_currency target_currency : String) (u : ℚ) : ℚ :=
  if base_currency = "USD" ∧ target_currency = "CNY" then 699/100
  else 4/5 + (2/5) * u

/-- The synthetic fallback series of `generate_historical_data`
(lines 201-219): seed `6.99` for exactly (USD, CNY), else
`random.uniform(0.8, 1.2) = 0.8 + 0.4 * u`; one point per `i` in
`range(days, -1, -1)`, dated `today - i`.  `fmt`/`tfmt` stand for
`strftime('%Y-%m-%d')` / `strftime('%Y-%m-%d %H:%M:%S')` on day numbers. -/
def genSynthetic (base_currency target_currency : String) (days : Int)
    (u : ℚ) (vs : Nat → ℚ) (today : Int) (fmt tfmt : Int → String) :
    List HistPoint :=
  synthPoints fmt tfmt (synthSeed base_currency target_currency u)
    ((List.range (days + 1).toNat).map fun (k : Nat) =>
      (today - (days - (k : Int)), vs k))

/-- `generate_historical_data` (lines 189-219): return the real series when
it is non-empty (`if real_history and len(real_history) > 0`), else the
synthetic fallback. -/
def generate_historical_data (base_currency target_currency : String)
    (days : Int) (resp : HistResponse) (u : ℚ) (vs : Nat → ℚ) (today : Int)
    (fmt tfmt : Int → String) : List HistPoint :=
  match get_historical_data_from_api base_currency target_currency days resp with
  | some real_history =>
      if real_history = [] then
        genSynthetic base_currency target_currency days u vs today fmt tfmt
      else real_history
  | none => genSynthetic base_currency target_currency days u vs today fmt tfmt

/-- Successful payload of `/api/exchange_rate` (lines 258-270, 294-306),
without the wall-clock `timestamp` field. -/
structure RatePayload where
  base_currency : String
  target_currency : String
  exchange_rate : ℚ
  inverse_rate : ℚ
  base_name : String
  target_name : String
  last_updated : String
  source : String
  cached : Bool
deriving DecidableEq, Repr

/-- A JSON reply of `/api/exchange_rate`: 200 success payload, or a
failure envelope with its HTTP status and `error` string. -/
inductive RateReply where
  | ok (p : RatePayload)
  | err (status : Nat) (msg : String)
deriving DecidableEq, Repr

/-- HTTP status of a `/api/exchange_rate` reply (success replies are 200). -/
def RateReply.status : RateReply → Nat
  | .ok _ => 200
  | .err s _ => s

/-- The `success` field of a `/api/exchange_rate` reply. -/
def RateReply.success : RateReply → Bool
  | .ok _ => true
  | .err _ _ => false

/-- `get_exchange_rate` handler (lines 235-315): uppercase the params,
validate both against `CURRENCY_DATA` (400), then serve from cache
(`cached=True`) or fetch from the providers, caching a fresh success
(`cached=False`); 503 when the fetch returns nothing.  Returns the reply
together with the cache dict as left after the request. -/
def get_exchange_rate (baseRaw targetRaw : String) (cache : Cache)
    (now : Nat) (today : String) (rs : List ProviderResponse) :
    RateReply × Cache :=
  let base_currency := pyUpper baseRaw
  let target_currency := pyUpper targetRaw
  match CURRENCY_DATA.lookup base_currency with
  | none => (.err 400 ("不支持的基准货币: " ++ base_currency), cache)
  | some binfo =>
    match CURRENCY_DATA.lookup target_currency with
    | none => (.err 400 ("不支持的目标货币: " ++ target_currency), cache)
    | some tinfo =>
      match get_cached_rate cache now base_currency target_currency with
      | some (cached_rate, cached_source) =>
          (.ok ⟨base_currency, target_currency, cached_rate,
            if cached_rate ≠ 0 then 1 / cached_rate else 0,
            binfo.name, tinfo.name, today, cached_source, true⟩, cache)
      | none =>
        match get_exchange_rate_from_api base_currency target_currency today rs with
        | none => (.err 503 "无法从任何汇率API获取数据", cache)
        | some api_result =>
            (.ok ⟨base_currency, target_currency, api_result.rate,
              if api_result.rate ≠ 0 then 1 / api_result.rate else 0,
              binfo.name, tinfo.name, api_result.date, api_result.source, false⟩,
             set_cached_rate cache now base_currency target_currency
               api_result.rate api_result.source)

/-- The raw `days` query parameter as the code can see it: absent,
an int-parsable string, or a string `int()` rejects (lines 322-327). -/
inductive DaysParam where
  | missing
  | numeric (n : Int)
  | nonNumeric
deriving DecidableEq, Repr

/-- `int(request.args.get('days', '30'))` with the `ValueError` handler
defaulting to 30 (lines 322-327). -/
def parseDays : DaysParam → Int
  | .numeric n => n
  | .missing => 30
  | .nonNumeric => 30

/-- Successful payload of `/api/historical` (lines 355-363), without the
wall-clock `timestamp` field. -/
structure HistPayload where
  base_currency : String
  target_currency : String
  current_rate : ℚ
  historical_data : List HistPoint
  days : Int
deriving DecidableEq, Repr

/-- A JSON reply of `/api/historical`. -/
inductive HistReply where
  | ok (p : HistPayload)
  | err (status : Nat) (msg : String)
deriving DecidableEq, Repr

/-- HTTP status of a `/api/historical` reply. -/
def HistReply.status : HistReply → Nat
  | .ok _ => 200
  | .err s _ => s

/-- The `success` field of a `/api/historical` reply. -/
def HistReply.success : HistReply → Bool
  | .ok _ => true
  | .err _ _ => false

/-- `get_historical_data` handler (lines 317-372): parse `days`, validate
both codes (400), take the current rate from the provider fetch — defaulting
to 6.99 for (USD, CNY) and 1.0 otherwise when the fetch returns nothing
(lines 345-350) — and attach the generated history. -/
def get_historical_data (baseRaw targetRaw : String) (daysP : DaysParam)
    (rs : List ProviderResponse) (hresp : HistResponse) (u : ℚ)
    (vs : Nat → ℚ) (today : Int) (todayStr : String)
    (fmt tfmt : Int → String) : HistReply :=
  let base_currency := pyUpper baseRaw
  let target_currency := pyUpper targetRaw
  let days_int := parseDays daysP
  match CURRENCY_DATA.lookup base_currency with
  | none => .err 400 ("不支持的基准货币: " ++ base_currency)
  | some _ =>
    match CURRENCY_DATA.lookup target_currency with
    | none => .err 400 ("不支持的目标货币: " ++ target_currency)
    | some _ =>
      let base_rate : ℚ :=
        match get_exchange_rate_from_api base_currency target_currency todayStr rs with
        | none =>
            if base_currency = "USD" ∧ target_currency = "CNY" then 699/100
            else 1
        | some current_rate_data => current_rate_data.rate
      .ok ⟨base_currency, target_currency, base_rate,
        generate_historical_data base_currency target_currency days_int hresp
          u vs today fmt tfmt, days_int⟩

/-- The raw `amount` query parameter: absent (default `1.0`), a
float-parsable string, or a string `float()` rejects (lines 380-387). -/
inductive AmountParam where
  | missing
  | numeric (q : ℚ)
  | nonNumeric
deriving DecidableEq, Repr

/-- `float(request.args.get('amount', 1.0))`, `none` when `ValueError`
is raised (lines 380-382). -/
def parseAmount : AmountParam → Option ℚ
  | .missing => some 1
  | .numeric q => some q
  | .nonNumeric => none

/-- Successful payload of `/api/convert` (lines 410-422), without the
`formatted` display string and the wall-clock `timestamp` field. -/
structure ConvertPayload where
  amount : ℚ
  converted_amount : ℚ
  base_currency : String
  target_currency : String
  exchange_rate : ℚ
  base_name : String
  target_name : String
  source : String
deriving DecidableEq, Repr

/-- A JSON reply of `/api/convert`. -/
inductive ConvertReply where
  | ok (p : ConvertPayload)
  | err (status : Nat) (msg : String)
deriving DecidableEq, Repr

/-- HTTP status of a `/api/convert` reply. -/
def ConvertReply.status : ConvertReply → Nat
  | .ok _ => 200
  | .err s _ => s

/-- The `success` field of a `/api/convert` reply. -/
def ConvertReply.success : ConvertReply → Bool
  | .ok _ => true
  | .err _ _ => false

/-- `convert_amount` handler (lines 374-431).  It validates only the amount
(400 on non-numeric, 400 on non-positive) and then calls the provider fetch
directly: there is NO currency-registry validation, so an unknown code
reaches the providers and ends as 503 (all failed, line 400-405) or as a
`KeyError` on `CURRENCY_DATA[...]` caught by the blanket handler as a 500
(lines 417-418, 426-431). -/
def convert_amount (baseRaw targetRaw : String) (amountP : AmountParam)
    (today : String) (rs : List ProviderResponse) : ConvertReply :=
  let base_currency := pyUpper baseRaw
  let target_currency := pyUpper targetRaw
  match parseAmount amountP with
  | none => .err 400 "金额必须为数字"
  | some amount =>
    if amount ≤ 0 then .err 400 "金额必须大于0"
    else
      match get_exchange_rate_from_api base_currency target_currency today rs with
      | none => .err 503 "无法获取汇率数据"
      | some api_result =>
        match CURRENCY_DATA.lookup base_currency with
        | none => .err 500 ("转换失败: '" ++ base_currency ++ "'")
        | some binfo =>
          match CURRENCY_DATA.lookup target_currency with
          | none => .err 500 ("转换失败: '" ++ target_currency ++ "'")
          | some tinfo =>
              .ok ⟨amount, amount * api_result.rate, base_currency,
                target_currency, api_result.rate, binfo.name, tinfo.name,
                api_result.source⟩

/-- C1, counterexample to the claim as stated: with base EUR and target CNY,
the first provider's 200 response contains a present and non-null rate for
CNY, namely `0` — yet the fetch does not return it (Python `if rate:` treats
`0` as missing, line 110), falls through all providers, and returns `None`. -/
theorem C1_counterexample :
    lookupRate [("CNY", some 0)] "CNY" = some 0 ∧
    get_exchange_rate_from_api "EUR" "CNY" "2026-10-12"
      [ProviderResponse.ok [("CNY", some 0)] (some "2026-10-10"),
       ProviderResponse.httpStatus 500, ProviderResponse.httpStatus 500] =
      none := by
  decide

/-- C1 (amended): the fetch tries the providers in the fixed configured
order (ExchangeRate-API, Frankfurter, OpenExchangeRates) and, for the first
provider whose response contains a present, non-null and non-zero
(Python-truthy) rate for the target currency, returns immediately with that
parsed rate, the reported date (or the current date if absent) and that
provider's name, trying no further providers (the result does not depend on
the later responses, which are universally quantified here); on any single
provider's error it appends a diagnostic naming that provider to `errors`
and continues to the next provider. -/
theorem C1_first_success_wins (base_currency target_currency today : String)
    (r1 r2 r3 : ProviderResponse) :
    (∀ a, tryProvider "ExchangeRate-API" target_currency today r1 = .ok a →
      get_exchange_rate_from_api base_currency target_currency today
        [r1, r2, r3] = some a ∧
      get_exchange_rate_errors target_currency today [r1, r2, r3] = []) ∧
    (∀ e1 a, tryProvider "ExchangeRate-API" target_currency today r1 = .error e1 →
      tryProvider "Frankfurter" target_currency today r2 = .ok a →
      get_exchange_rate_from_api base_currency target_currency today
        [r1, r2, r3] = some a ∧
      get_exchange_rate_errors target_currency today [r1, r2, r3] = [e1]) ∧
    (∀ e1 e2 a, tryProvider "ExchangeRate-API" target_currency today r1 = .error e1 →
      tryProvider "Frankfurter" target_currency today r2 = .error e2 →
      tryProvider "OpenExchangeRates" target_currency today r3 = .ok a →
      get_exchange_rate_from_api base_currency target_currency today
        [r1, r2, r3] = some a ∧
      get_exchange_rate_errors target_currency today [r1, r2, r3] = [e1, e2]) ∧
    (∀ (name : String) rates date r, lookupRate rates target_currency = some r →
      r ≠ 0 →
      tryProvider name target_currency today (ProviderResponse.ok rates date) =
        .ok ⟨r, date.getD today, name⟩) ∧
    (∀ name : String,
      tryProvider name target_currency today .timeout =
        .error (name ++ ": 请求超时") ∧
      tryProvider name target_currency today .connError =
        .error (name ++ ": 连接错误") ∧
      tryProvider name target_currency today .badJson =
        .error (name ++ ": 响应格式错误") ∧
      (∀ c, tryProvider name target_currency today (.httpStatus c) =
        .error (name ++ ": HTTP " ++ toString c)) ∧
      (∀ m, tryProvider name target_currency today (.reqExn m) =
        .error (name ++ ": " ++ m)) ∧
      (∀ rates date, lookupRate rates target_currency = none →
        tryProvider name target_currency today (ProviderResponse.ok rates date) =
          .error (name ++ ": 未找到汇率数据"))) := by
  refine ⟨?_, ?_, ?_, ?_, ?_⟩
  · intro a h
    constructor <;>
      simp [get_exchange_rate_from_api, get_exchange_rate_errors, apiNames,
        EXCHANGE_RATE_APIS, fetchLoop, h]
  · intro e1 a h1 h2
    constructor <;>
      simp [get_exchange_rate_from_api, get_exchange_rate_errors, apiNames,
        EXCHANGE_RATE_APIS, fetchLoop, h1, h2]
  · intro e1 e2 a h1 h2 h3
    constructor <;>
      simp [get_exchange_rate_from_api, get_exchange_rate_errors, apiNames,
        EXCHANGE_RATE_APIS, fetchLoop, h1, h2, h3]
  · intro name rates date r h hr
    simp [tryProvider, h, hr]
  · intro name
    refine ⟨rfl, rfl, rfl, fun c => rfl, fun m => rfl, ?_⟩
    intro rates date h
    simp [tryProvider, h]

/-- Witness for C1: a concrete run where provider 1 times out and provider 2
succeeds with rate 9. -/
theorem C1_first_success_wins_witness :
    get_exchange_rate_from_api "EUR" "GBP" "2026-10-12"
      [ProviderResponse.timeout,
       ProviderResponse.ok [("GBP", some 9)] (some "2026-10-11"),
       ProviderResponse.badJson] =
      some ⟨9, "2026-10-11", "Frankfurter"⟩ ∧
    get_exchange_rate_errors "GBP" "2026-10-12"
      [ProviderResponse.timeout,
       ProviderResponse.ok [("GBP", some 9)] (some "2026-10-11"),
       ProviderResponse.badJson] = ["ExchangeRate-API: 请求超时"] :=
  (C1_first_success_wins "EUR" "GBP" "2026-10-12" ProviderResponse.timeout
      (ProviderResponse.ok [("GBP", some 9)] (some "2026-10-11"))
      ProviderResponse.badJson).2.1
    "ExchangeRate-API: 请求超时" ⟨9, "2026-10-11", "Frankfurter"⟩
    rfl rfl

/-- C4: the cache read returns a stored quote (rate and source) if and only
if an entry for the pair is present and its age `now - insertedAt` is
strictly below 300 seconds; an expired or absent entry reads as nothing.
The read is a pure function of the cache (as in the code, which only reads
the dict), so it removes nothing. -/
theorem C4_cache_read (cache : Cache) (now : Nat)
    (base_currency target_currency : String) :
    (∀ (rate : ℚ) (source : String),
      get_cached_rate cache now base_currency target_currency =
          some (rate, source) ↔
        ∃ e : CacheEntry,
          cache (cacheKey base_currency target_currency) = some e ∧
          now - e.timestamp < CACHE_DURATION ∧ e.rate = rate ∧
          e.source = source) ∧
    (∀ e : CacheEntry,
      cache (cacheKey base_currency target_currency) = some e →
      ¬ now - e.timestamp < CACHE_DURATION →
      get_cached_rate cache now base_currency target_currency = none) ∧
    (cache (cacheKey base_currency target_currency) = none →
      get_cached_rate cache now base_currency target_currency = none) := by
  refine ⟨?_, ?_, ?_⟩
  · intro rate source
    cases hk : cache (cacheKey base_currency target_currency) with
    | none => simp [get_cached_rate, hk]
    | some e =>
      by_cases hfresh : now - e.timestamp < CACHE_DURATION
      · simp only [get_cached_rate, hk, if_pos hfresh]
        constructor
        · rintro h
          injection h with h
          exact ⟨e, rfl, hfresh, congrArg Prod.fst h, congrArg Prod.snd h⟩
        · rintro ⟨e', he', _, hr, hs⟩
          injection he' with h
          subst h
          simp [hr, hs]
      · simp only [get_cached_rate, hk, if_neg hfresh]
        constructor
        · rintro h
          exact absurd h (by simp)
        · rintro ⟨e', he', hf', _, _⟩
          injection he' with h
          subst h
          exact absurd hf' hfresh
  · intro e hk hstale
    simp [get_cached_rate, hk, hstale]
  · intro hk
    simp [get_cached_rate, hk]

/-- Witness for C4: an entry written at t=100 read at t=500 (age 400 ≥ 300)
is treated as absent. -/
theorem C4_cache_read_witness :
    get_cached_rate
      (fun k => if k = "USD_CNY" then some ⟨7, "ExchangeRate-API", 100⟩ else none)
      500 "USD" "CNY" = none :=
  (C4_cache_read
      (fun k => if k = "USD_CNY" then some ⟨7, "ExchangeRate-API", 100⟩ else none)
      500 "USD" "CNY").2.1 ⟨7, "ExchangeRate-API", 100⟩ (by decide) (by decide)

/-- C5: after a successful uncached fetch, the handler replies with the
fetched rate and `cached=false` and stores it via the cache put, which
unconditionally overwrites the pair's entry with a fresh timestamp; a
request within the TTL then returns the same rate with `cached=true`
(whatever the providers would now answer), and once 300 seconds have
elapsed the cached value reads as nothing and the next request fetches
afresh. -/
theorem C5_cache_roundtrip (baseRaw targetRaw today : String) (cache : Cache)
    (now : Nat) (rs : List ProviderResponse) (a : ApiResult)
    (binfo tinfo : CurrencyInfo)
    (hb : CURRENCY_DATA.lookup (pyUpper baseRaw) = some binfo)
    (ht : CURRENCY_DATA.lookup (pyUpper targetRaw) = some tinfo)
    (hmiss : get_cached_rate cache now (pyUpper baseRaw) (pyUpper targetRaw) = none)
    (hapi : get_exchange_rate_from_api (pyUpper baseRaw) (pyUpper targetRaw)
      today rs = some a) :
    (get_exchange_rate baseRaw targetRaw cache now today rs).1 =
      .ok ⟨pyUpper baseRaw, pyUpper targetRaw, a.rate,
        if a.rate ≠ 0 then 1 / a.rate else 0, binfo.name, tinfo.name,
        a.date, a.source, false⟩ ∧
    (get_exchange_rate baseRaw targetRaw cache now today rs).2 =
      set_cached_rate cache now (pyUpper baseRaw) (pyUpper targetRaw)
        a.rate a.source ∧
    (∀ (c : Cache) (t : Nat),
      set_cached_rate c t (pyUpper baseRaw) (pyUpper targetRaw) a.rate a.source
        (cacheKey (pyUpper baseRaw) (pyUpper targetRaw)) =
        some ⟨a.rate, a.source, t⟩) ∧
    (∀ (now2 : Nat) (today2 : String) (rs2 : List ProviderResponse),
      now2 - now < CACHE_DURATION →
      (get_exchange_rate baseRaw targetRaw
        ((get_exchange_rate baseRaw targetRaw cache now today rs).2)
        now2 today2 rs2).1 =
        .ok ⟨pyUpper baseRaw, pyUpper targetRaw, a.rate,
          if a.rate ≠ 0 then 1 / a.rate else 0, binfo.name, tinfo.name,
          today2, a.source, true⟩) ∧
    (∀ now2 : Nat, ¬ now2 - now < CACHE_DURATION →
      get_cached_rate ((get_exchange_rate baseRaw targetRaw cache now today rs).2)
        now2 (pyUpper baseRaw) (pyUpper targetRaw) = none ∧
      (∀ (today2 : String) (rs2 : List ProviderResponse) (a2 : ApiResult),
        get_exchange_rate_from_api (pyUpper baseRaw) (pyUpper targetRaw)
          today2 rs2 = some a2 →
        (get_exchange_rate baseRaw targetRaw
          ((get_exchange_rate baseRaw targetRaw cache now today rs).2)
          now2 today2 rs2).1 =
          .ok ⟨pyUpper baseRaw, pyUpper targetRaw, a2.rate,
            if a2.rate ≠ 0 then 1 / a2.rate else 0, binfo.name, tinfo.name,
            a2.date, a2.source, false⟩)) := by
  have hfirst : get_exchange_rate baseRaw targetRaw cache now today rs =
      (.ok ⟨pyUpper baseRaw, pyUpper targetRaw, a.rate,
        if a.rate ≠ 0 then 1 / a.rate else 0, binfo.name, tinfo.name,
        a.date, a.source, false⟩,
       set_cached_rate cache now (pyUpper baseRaw) (pyUpper targetRaw)
         a.rate a.source) := by
    simp [get_exchange_rate, hb, ht, hmiss, hapi]
  refine ⟨by rw [hfirst], by rw [hfirst], ?_, ?_, ?_⟩
  · intro c t
    simp [set_cached_rate]
  · intro now2 today2 rs2 hfresh
    rw [hfirst]
    have hhit : get_cached_rate
        (set_cached_rate cache now (pyUpper baseRaw) (pyUpper targetRaw)
          a.rate a.source)
        now2 (pyUpper baseRaw) (pyUpper targetRaw) = some (a.rate, a.source) := by
      simp [get_cached_rate, set_cached_rate, hfresh]
    simp [get_exchange_rate, hb, ht, hhit]
  · intro now2 hstale
    have hnone : get_cached_rate
        (set_cached_rate cache now (pyUpper baseRaw) (pyUpper targetRaw)
          a.rate a.source)
        now2 (pyUpper baseRaw) (pyUpper targetRaw) = none := by
      simp [get_cached_rate, set_cached_rate, hstale]
    constructor
    · rw [hfirst]
      exact hnone
    intro today2 rs2 a2 hapi2
    rw [hfirst]
    simp [get_exchange_rate, hb, ht, hnone, hapi2]

/-- Witness for C5: USD→CNY fetched at rate 7 and time 1000; a second
request at time 1100 (age 100 < 300) returns the same rate from the cache. -/
theorem C5_cache_roundtrip_witness :
    (get_exchange_rate "USD" "CNY"
      ((get_exchange_rate "USD" "CNY" (fun _ => none) 1000 "2026-10-12"
        [ProviderResponse.ok [("CNY", some 7)] (some "2026-10-11"),
         ProviderResponse.timeout, ProviderResponse.timeout]).2)
      1100 "2026-10-13"
      [ProviderResponse.timeout, ProviderResponse.timeout,
       ProviderResponse.timeout]).1 =
      .ok ⟨"USD", "CNY", 7, if (7 : ℚ) ≠ 0 then 1 / 7 else 0,
        "United States Dollar", "Chinese Yuan", "2026-10-13",
        "ExchangeRate-API", true⟩ :=
  (C5_cache_roundtrip "USD" "CNY" "2026-10-12" (fun _ => none) 1000
      [ProviderResponse.ok [("CNY", some 7)] (some "2026-10-11"),
       ProviderResponse.timeout, ProviderResponse.timeout]
      ⟨7, "2026-10-11", "ExchangeRate-API"⟩
      ⟨"United States Dollar", "🇺🇸"⟩ ⟨"Chinese Yuan", "🇨🇳"⟩
      (by decide) (by decide) rfl rfl).2.2.2.1
    1100 "2026-10-13"
    [ProviderResponse.timeout, ProviderResponse.timeout,
     ProviderResponse.timeout] (by decide)

/-- C8: every successful `/api/exchange_rate` reply — cached or freshly
fetched — carries `inverse_rate = 1 / exchange_rate` when the rate is
non-zero and `inverse_rate = 0` when the rate is zero. -/
theorem C8_inverse_rate (baseRaw targetRaw today : String) (cache : Cache)
    (now : Nat) (rs : List ProviderResponse) (p : RatePayload)
    (h : (get_exchange_rate baseRaw targetRaw cache now today rs).1 = .ok p) :
    (p.exchange_rate ≠ 0 → p.inverse_rate = 1 / p.exchange_rate) ∧
    (p.exchange_rate = 0 → p.inverse_rate = 0) := by
  have hmain : p.inverse_rate =
      if p.exchange_rate = 0 then 0 else p.exchange_rate⁻¹ := by
    rcases hbL : CURRENCY_DATA.lookup (pyUpper baseRaw) with _ | binfo <;>
      rcases htL : CURRENCY_DATA.lookup (pyUpper targetRaw) with _ | tinfo <;>
        rcases hcL : get_cached_rate cache now (pyUpper baseRaw)
          (pyUpper targetRaw) with _ | ⟨cr, cs⟩ <;>
          rcases haL : get_exchange_rate_from_api (pyUpper baseRaw)
            (pyUpper targetRaw) today rs with _ | a <;>
            simp [get_exchange_rate, hbL, htL, hcL, haL, one_div] at h <;>
            simp [← h]
  refine ⟨fun hr => ?_, fun h0 => ?_⟩
  · rw [hmain, if_neg hr, one_div]
  · rw [hmain, if_pos h0]

/-- Witness for C8: a cache hit at rate 7 yields `inverse_rate = 1/7`. -/
theorem C8_inverse_rate_witness :
    (get_exchange_rate "USD" "CNY"
      (fun k => if k = "USD_CNY" then some ⟨7, "Frankfurter", 100⟩ else none)
      200 "2026-10-12" []).1 =
      .ok ⟨"USD", "CNY", 7, if (7 : ℚ) ≠ 0 then 1 / 7 else 0,
        "United States Dollar", "Chinese Yuan", "2026-10-12",
        "Frankfurter", true⟩ ∧
    ((7 : ℚ) ≠ 0 →
      (if (7 : ℚ) ≠ 0 then 1 / 7 else (0 : ℚ)) = 1 / 7) ∧
    ((7 : ℚ) = 0 → (if (7 : ℚ) ≠ 0 then 1 / 7 else (0 : ℚ)) = 0) :=
  ⟨rfl,
    C8_inverse_rate "USD" "CNY" "2026-10-12"
      (fun k => if k = "USD_CNY" then some ⟨7, "Frankfurter", 100⟩ else none)
      200 []
      ⟨"USD", "CNY", 7, if (7 : ℚ) ≠ 0 then 1 / 7 else 0,
        "United States Dollar", "Chinese Yuan", "2026-10-12",
        "Frankfurter", true⟩ rfl⟩

/-- C9: a positive amount `A` converted at a fetched rate `R` yields
`converted_amount = A * R`; in particular USD→CNY at amount 100 under the
fallback rate 6.99 gives 699; a non-numeric or non-positive amount is
rejected with HTTP 400 independently of the provider responses (no rate is
fetched). -/
theorem C9_convert (baseRaw targetRaw today : String)
    (rs : List ProviderResponse) :
    (∀ (q : ℚ) (a : ApiResult) (binfo tinfo : CurrencyInfo), 0 < q →
      get_exchange_rate_from_api (pyUpper baseRaw) (pyUpper targetRaw)
        today rs = some a →
      CURRENCY_DATA.lookup (pyUpper baseRaw) = some binfo →
      CURRENCY_DATA.lookup (pyUpper targetRaw) = some tinfo →
      convert_amount baseRaw targetRaw (.numeric q) today rs =
        .ok ⟨q, q * a.rate, pyUpper baseRaw, pyUpper targetRaw, a.rate,
          binfo.name, tinfo.name, a.source⟩) ∧
    (convert_amount "USD" "CNY" (.numeric 100) today
      [ProviderResponse.timeout, ProviderResponse.timeout,
       ProviderResponse.timeout] =
      .ok ⟨100, 699, "USD", "CNY", 699/100, "United States Dollar",
        "Chinese Yuan", "默认汇率(演示)"⟩) ∧
    (∀ rs2 : List ProviderResponse,
      convert_amount baseRaw targetRaw .nonNumeric today rs2 =
        .err 400 "金额必须为数字") ∧
    (∀ q : ℚ, q ≤ 0 → ∀ rs2 : List ProviderResponse,
      convert_amount baseRaw targetRaw (.numeric q) today rs2 =
        .err 400 "金额必须大于0") := by
  refine ⟨?_, ?_, fun rs2 => rfl, ?_⟩
  · intro q a binfo tinfo hq hapi hb ht
    simp [convert_amount, parseAmount, hapi, hb, ht, hq.not_le]
  · have hstep : convert_amount "USD" "CNY" (.numeric 100) today
        [ProviderResponse.timeout, ProviderResponse.timeout,
         ProviderResponse.timeout] =
        .ok ⟨100, 100 * (699/100), "USD", "CNY", 699/100,
          "United States Dollar", "Chinese Yuan", "默认汇率(演示)"⟩ := rfl
    have h699 : (100 : ℚ) * (699/100) = 699 := by norm_num
    rw [hstep, h699]
  · intro q hq rs2
    simp [convert_amount, parseAmount, hq]

/-- Witness for C9: 3 EUR at rate 2 gives converted_amount 3 * 2 = 6. -/
theorem C9_convert_witness :
    convert_amount "EUR" "GBP" (.numeric 3) "2026-10-12"
      [ProviderResponse.ok [("GBP", some 2)] none, ProviderResponse.timeout,
       ProviderResponse.timeout] =
      .ok ⟨3, 3 * 2, "EUR", "GBP", 2, "Euro", "British Pound",
        "ExchangeRate-API"⟩ ∧
    (3 : ℚ) * 2 = 6 :=
  ⟨(C9_convert "EUR" "GBP" "2026-10-12"
      [ProviderResponse.ok [("GBP", some 2)] none, ProviderResponse.timeout,
       ProviderResponse.timeout]).1
    3 ⟨2, "2026-10-12", "ExchangeRate-API"⟩ ⟨"Euro", "🇪🇺"⟩
    ⟨"British Pound", "🇬🇧"⟩ (by norm_num) rfl (by decide) (by decide),
   by norm_num⟩

/-- C10: `/api/historical` succeeds (HTTP 200, `success=true`) even when
every provider fails; the reported `current_rate` is then 6.99 for exactly
(USD, CNY) — via the fetch's own demo fallback — and 1.0 for every other
valid pair, i.e. a fabricated rate rather than a failure. -/
theorem C10_historical_default_rate (baseRaw targetRaw : String)
    (daysP : DaysParam) (r1 r2 r3 : ProviderResponse) (hresp : HistResponse)
    (u : ℚ) (vs : Nat → ℚ) (today : Int) (todayStr : String)
    (fmt tfmt : Int → String) (e1 e2 e3 : String) (binfo tinfo : CurrencyInfo)
    (h1 : tryProvider "ExchangeRate-API" (pyUpper targetRaw) todayStr r1 =
      .error e1)
    (h2 : tryProvider "Frankfurter" (pyUpper targetRaw) todayStr r2 =
      .error e2)
    (h3 : tryProvider "OpenExchangeRates" (pyUpper targetRaw) todayStr r3 =
      .error e3)
    (hb : CURRENCY_DATA.lookup (pyUpper baseRaw) = some binfo)
    (ht : CURRENCY_DATA.lookup (pyUpper targetRaw) = some tinfo) :
    get_historical_data baseRaw targetRaw daysP [r1, r2, r3] hresp u vs
      today todayStr fmt tfmt =
      .ok ⟨pyUpper baseRaw, pyUpper targetRaw,
        (if pyUpper baseRaw = "USD" ∧ pyUpper targetRaw = "CNY" then 699/100
         else 1),
        generate_historical_data (pyUpper baseRaw) (pyUpper targetRaw)
          (parseDays daysP) hresp u vs today fmt tfmt,
        parseDays daysP⟩ ∧
    (get_historical_data baseRaw targetRaw daysP [r1, r2, r3] hresp u vs
      today todayStr fmt tfmt).status = 200 ∧
    (get_historical_data baseRaw targetRaw daysP [r1, r2, r3] hresp u vs
      today todayStr fmt tfmt).success = true := by
  have hloop : (fetchLoop (pyUpper targetRaw) todayStr
      (apiNames.zip [r1, r2, r3]) []).1 = none := by
    simp [apiNames, EXCHANGE_RATE_APIS, fetchLoop, h1, h2, h3]
  by_cases hpair : pyUpper baseRaw = "USD" ∧ pyUpper targetRaw = "CNY"
  · obtain ⟨hbu, htu⟩ := hpair
    rw [hbu] at hb
    rw [htu] at ht hloop
    have hapi : get_exchange_rate_from_api "USD" "CNY" todayStr
        [r1, r2, r3] = some ⟨699/100, todayStr, "默认汇率(演示)"⟩ := by
      simp [get_exchange_rate_from_api, hloop]
    refine ⟨?_, ?_, ?_⟩ <;>
      simp [get_historical_data, hbu, htu, hb, ht, hapi, HistReply.status,
        HistReply.success]
  · have hapi : get_exchange_rate_from_api (pyUpper baseRaw)
        (pyUpper targetRaw) todayStr [r1, r2, r3] = none := by
      simp [get_exchange_rate_from_api, hloop, hpair]
    refine ⟨?_, ?_, ?_⟩ <;>
      simp [get_historical_data, hb, ht, hapi, hpair, HistReply.status,
        HistReply.success]

/-- Witness for C10: EUR→GBP with all providers failing still yields a
200/success reply. -/
theorem C10_historical_default_rate_witness :
    (get_historical_data "EUR" "GBP" .missing
      [ProviderResponse.timeout, ProviderResponse.connError,
       ProviderResponse.badJson] .failure 0 (fun _ => 0) 0 "2026-10-12"
      (fun i => toString i) (fun i => toString i)).status = 200 ∧
    (get_historical_data "EUR" "GBP" .missing
      [ProviderResponse.timeout, ProviderResponse.connError,
       ProviderResponse.badJson] .failure 0 (fun _ => 0) 0 "2026-10-12"
      (fun i => toString i) (fun i => toString i)).success = true :=
  ⟨(C10_historical_default_rate "EUR" "GBP" .missing ProviderResponse.timeout
      ProviderResponse.connError ProviderResponse.badJson .failure 0
      (fun _ => 0) 0 "2026-10-12" (fun i => toString i) (fun i => toString i)
      "ExchangeRate-API: 请求超时" "Frankfurter: 连接错误"
      "OpenExchangeRates: 响应格式错误" ⟨"Euro", "🇪🇺"⟩
      ⟨"British Pound", "🇬🇧"⟩ rfl rfl rfl (by decide) (by decide)).2.1,
   (C10_historical_default_rate "EUR" "GBP" .missing ProviderResponse.timeout
      ProviderResponse.connError ProviderResponse.badJson .failure 0
      (fun _ => 0) 0 "2026-10-12" (fun i => toString i) (fun i => toString i)
      "ExchangeRate-API: 请求超时" "Frankfurter: 连接错误"
      "OpenExchangeRates: 响应格式错误" ⟨"Euro", "🇪🇺"⟩
      ⟨"British Pound", "🇬🇧"⟩ rfl rfl rfl (by decide) (by decide)).2.2⟩

/-- Shifting the random stream by one step advances the raw walk by one. -/
theorem rawRate_shift (b : ℚ) (vs : Nat → ℚ) (k : Nat) :
    rawRate (b + deltaOf vs 0) (fun j => vs (j + 1)) k = rawRate b vs (k + 1) := by
  induction k with
  | zero => simp [rawRate, deltaOf]
  | succ k ih =>
    simp only [rawRate]
    rw [ih]
    simp [rawRate, deltaOf]

/-- Closed form of the synthetic loop: the k-th emitted point is dated by
the k-th date and carries `round4` of the raw walk after k+1 steps. -/
theorem synthPoints_range (fmt tfmt : Int → String) (b : ℚ) (vs : Nat → ℚ)
    (dateF : Nat → Int) (n : Nat) :
    synthPoints fmt tfmt b ((List.range n).map fun k => (dateF k, vs k)) =
    (List.range n).map fun k =>
      ⟨fmt (dateF k), round4 (rawRate b vs k), tfmt (dateF k)⟩ := by
  induction n generalizing b vs dateF with
  | zero => simp [synthPoints]
  | succ n ih =>
    rw [List.range_succ_eq_map]
    simp only [List.map_cons, List.map_map, Function.comp_def,
      Nat.succ_eq_add_one]
    have hih := ih (b + deltaOf vs 0) (fun j => vs (j + 1))
      (fun j => dateF (j + 1))
    simp only [rawRate_shift] at hih
    simp only [deltaOf] at hih
    rw [synthPoints, hih]
    simp [rawRate, deltaOf]

/-- `genSynthetic` in closed form. -/
theorem genSynthetic_eq (base_currency target_currency : String) (days : Int)
    (u : ℚ) (vs : Nat → ℚ) (today : Int) (fmt tfmt : Int → String) :
    genSynthetic base_currency target_currency days u vs today fmt tfmt =
    (List.range (days + 1).toNat).map fun k =>
      ⟨fmt (today - (days - (k : Int))),
       round4 (rawRate (synthSeed base_currency target_currency u) vs k),
       tfmt (today - (days - (k : Int)))⟩ := by
  unfold genSynthetic
  exact synthPoints_range fmt tfmt _ vs (fun k => today - (days - (k : Int))) _

/-- The range list is pairwise ordered with an upper bound on the larger
index. -/
theorem range_pairwise_bounded (n : Nat) :
    List.Pairwise (fun i j => i < j ∧ j < n) (List.range n) := by
  rw [List.pairwise_iff_get]
  intro i j hij
  rw [List.get_range, List.get_range]
  exact ⟨hij, by simpa using j.isLt⟩

/-- A list sorted by date whose dates are distinct is strictly ascending. -/
theorem sorted_nodup_pairwise_lt (l : List HistPoint)
    (hs : List.Sorted histLe l) (hn : (l.map HistPoint.date).Nodup) :
    List.Pairwise (fun p q : HistPoint => p.date < q.date) l := by
  have hn' : List.Pairwise (fun p q : HistPoint => p.date ≠ q.date) l :=
    List.pairwise_map.mp hn
  exact (List.Pairwise.and hs hn').imp fun h => lt_of_le_of_ne h.1 h.2

/-- The points kept by the primary historical path are exactly the response
dates whose rate map contains the target currency. -/
theorem histFilter_length (target_currency : String)
    (rates : List (String × List (String × ℚ))) :
    (rates.filterMap fun p =>
      match p.2.lookup target_currency with
      | some r =>
          some (⟨p.1, round4 r, p.1 ++ " 12:00:00"⟩ : HistPoint)
      | none => none).length =
    (rates.filterMap fun p => p.2.lookup target_currency).length := by
  induction rates with
  | nil => rfl
  | cons p rest ih =>
    cases h : p.2.lookup target_currency with
    | none => simpa [List.filterMap_cons, h] using ih
    | some r => simpa [List.filterMap_cons, h] using ih

/-- C6, counterexample to the claim as stated: with `days = 7` the primary
provider path happily returns a 2-point series when the provider's response
only contains 2 dates for the target — the `days+1 = 8` length guarantee
does not hold on the primary path. -/
theorem C6_counterexample :
    (generate_historical_data "USD" "CNY" 7
      (.ok [("2026-10-01", [("CNY", 7)]), ("2026-10-02", [("CNY", 7)])])
      0 (fun _ => 0) 0 (fun i => toString i) (fun i => toString i)).length
      = 2 ∧
    (2 : Nat) ≠ 7 + 1 := by
  have h1 : get_historical_data_from_api "USD" "CNY" 7
      (.ok [("2026-10-01", [("CNY", 7)]), ("2026-10-02", [("CNY", 7)])]) =
      some (List.insertionSort histLe
        [⟨"2026-10-01", round4 7, "2026-10-01 12:00:00"⟩,
         ⟨"2026-10-02", round4 7, "2026-10-02 12:00:00"⟩]) := rfl
  have hlen : (List.insertionSort histLe
      [⟨"2026-10-01", round4 7, "2026-10-01 12:00:00"⟩,
       ⟨"2026-10-02", round4 7, "2026-10-02 12:00:00"⟩]).length = 2 := by
    rw [List.length_insertionSort]
    rfl
  have hne : List.insertionSort histLe
      [(⟨"2026-10-01", round4 7, "2026-10-01 12:00:00"⟩ : HistPoint),
       ⟨"2026-10-02", round4 7, "2026-10-02 12:00:00"⟩] ≠ [] := by
    intro he
    rw [he] at hlen
    exact absurd hlen (by decide)
  refine ⟨?_, by decide⟩
  have hg : generate_historical_data "USD" "CNY" 7
      (.ok [("2026-10-01", [("CNY", 7)]), ("2026-10-02", [("CNY", 7)])])
      0 (fun _ => 0) 0 (fun i => toString i) (fun i => toString i) =
      List.insertionSort histLe
        [⟨"2026-10-01", round4 7, "2026-10-01 12:00:00"⟩,
         ⟨"2026-10-02", round4 7, "2026-10-02 12:00:00"⟩] := by
    simp only [generate_historical_data, h1]
    rw [if_neg hne]
  rw [hg, hlen]

/-- C6 (amended): for every base, target and non-negative `days`, the
SYNTHETIC FALLBACK path (taken when the primary path yields no points)
returns exactly `days+1` points covering `today-days .. today`, with dates
strictly ascending whenever the date rendering is strictly monotone on that
window, and every rate rounded to 4 decimal places; the PRIMARY provider
path returns points sorted ascending by date with every rate rounded to 4
decimals, but its length equals the number of response dates whose rate map
contains the target currency — not necessarily `days+1` (strict ascent
holds when the response dates are distinct). -/
theorem C6_series_shape (base_currency target_currency : String) (days : Nat)
    (u : ℚ) (vs : Nat → ℚ) (today : Int) (fmt tfmt : Int → String) :
    (∀ resp : HistResponse,
      (get_historical_data_from_api base_currency target_currency days resp
          = none ∨
       get_historical_data_from_api base_currency target_currency days resp
          = some []) →
      generate_historical_data base_currency target_currency days resp u vs
          today fmt tfmt =
        ((List.range (days + 1)).map fun k =>
          ⟨fmt (today - ((days : Int) - (k : Int))),
           round4 (rawRate (synthSeed base_currency target_currency u) vs k),
           tfmt (today - ((days : Int) - (k : Int)))⟩) ∧
      (generate_historical_data base_currency target_currency days resp u vs
          today fmt tfmt).length = days + 1 ∧
      ((∀ i j : Int, today - days ≤ i → i < j → j ≤ today → fmt i < fmt j) →
        List.Pairwise (fun p q : HistPoint => p.date < q.date)
          (generate_historical_data base_currency target_currency days resp
            u vs today fmt tfmt))) ∧
    (∀ (rates : List (String × List (String × ℚ))) (h : List HistPoint),
      get_historical_data_from_api base_currency target_currency days
        (.ok rates) = some h →
      List.Sorted histLe h ∧
      h.length =
        (rates.filterMap fun p => p.2.lookup target_currency).length ∧
      (∀ p ∈ h, ∃ r : ℚ, p.rate = round4 r) ∧
      ((h.map HistPoint.date).Nodup →
        List.Pairwise (fun p q : HistPoint => p.date < q.date) h)) := by
  have htn : (((days : Int)) + 1).toNat = days + 1 := by omega
  constructor
  · intro resp hfail
    have hgen : generate_historical_data base_currency target_currency days
        resp u vs today fmt tfmt =
        genSynthetic base_currency target_currency days u vs today fmt tfmt := by
      rcases hfail with h | h <;> simp [generate_historical_data, h]
    have hchar : generate_historical_data base_currency target_currency days
        resp u vs today fmt tfmt =
        ((List.range (days + 1)).map fun k =>
          ⟨fmt (today - ((days : Int) - (k : Int))),
           round4 (rawRate (synthSeed base_currency target_currency u) vs k),
           tfmt (today - ((days : Int) - (k : Int)))⟩) := by
      rw [hgen, genSynthetic_eq, htn]
    refine ⟨hchar, ?_, ?_⟩
    · rw [hchar]
      simp
    · intro hmono
      rw [hchar]
      refine List.pairwise_map.mpr ?_
      refine (range_pairwise_bounded (days + 1)).imp ?_
      rintro i j ⟨hij, hjn⟩
      exact hmono _ _ (by omega) (by omega) (by omega)
  · intro rates h hsome
    simp only [get_historical_data_from_api, Option.some.injEq] at hsome
    subst hsome
    refine ⟨List.sorted_insertionSort histLe _, ?_, ?_, ?_⟩
    · rw [List.length_insertionSort]
      exact histFilter_length target_currency rates
    · intro p hp
      have hp' : p ∈ rates.filterMap fun q =>
          match q.2.lookup target_currency with
          | some r =>
              some (⟨q.1, round4 r, q.1 ++ " 12:00:00"⟩ : HistPoint)
          | none => none :=
        ((List.perm_insertionSort histLe _).mem_iff).mp hp
      obtain ⟨a, _, hFa⟩ := List.mem_filterMap.mp hp'
      cases hlk : a.2.lookup target_currency with
      | none => rw [hlk] at hFa; cases hFa
      | some r =>
        rw [hlk] at hFa
        refine ⟨r, ?_⟩
        injection hFa with hFa
        rw [← hFa]
    · intro hnd
      exact sorted_nodup_pairwise_lt _ (List.sorted_insertionSort histLe _) hnd

/-- Witness for C6: the fallback path for EUR→GBP with `days = 1` and
`today = 5` produces exactly 2 points, and with the strictly monotone date
rendering `i ↦ "a"*i` the dates are strictly ascending. -/
theorem C6_series_shape_witness :
    (generate_historical_data "EUR" "GBP" 1 .failure 0 (fun _ => 0) 5
      (fun i => String.mk (List.replicate i.toNat 'a'))
      (fun i => String.mk (List.replicate i.toNat 'b'))).length = 1 + 1 ∧
    List.Pairwise (fun p q : HistPoint => p.date < q.date)
      (generate_historical_data "EUR" "GBP" 1 .failure 0 (fun _ => 0) 5
        (fun i => String.mk (List.replicate i.toNat 'a'))
        (fun i => String.mk (List.replicate i.toNat 'b'))) := by
  have hmono : ∀ i j : Int, (5 : Int) - (1 : Nat) ≤ i → i < j → j ≤ 5 →
      String.mk (List.replicate i.toNat 'a') <
      String.mk (List.replicate j.toNat 'a') := by
    intro i j hi hij hj
    have hi4 : i = 4 := by omega
    have hj5 : j = 5 := by omega
    subst hi4 hj5
    rw [String.lt_iff_toList_lt]
    decide
  exact ⟨((C6_series_shape "EUR" "GBP" 1 0 (fun _ => 0) 5
      (fun i => String.mk (List.replicate i.toNat 'a'))
      (fun i => String.mk (List.replicate i.toNat 'b'))).1 .failure
        (Or.inl rfl)).2.1,
    ((C6_series_shape "EUR" "GBP" 1 0 (fun _ => 0) 5
      (fun i => String.mk (List.replicate i.toNat 'a'))
      (fun i => String.mk (List.replicate i.toNat 'b'))).1 .failure
        (Or.inl rfl)).2.2 hmono⟩

/-- C7: the synthetic fallback series is used only when the primary path
yields no points (a non-empty primary series is returned unchanged,
whatever the random draws); the fallback seeds the base rate at 6.99 for
exactly (USD, CNY) and otherwise at `0.8 + 0.4u ∈ [0.8, 1.2]` for the
uniform draw `u ∈ [0,1)`; each emitted rate is `round4` of the raw walk,
where each step adds a delta `(v - 0.5) * 0.05 ∈ [-0.025, 0.025]` for a
uniform draw `v ∈ [0,1)` to the previous UNROUNDED running rate, which
becomes the new running base. -/
theorem C7_synthetic_walk (base_currency target_currency : String)
    (days : Nat) (u : ℚ) (vs : Nat → ℚ) (today : Int)
    (fmt tfmt : Int → String) :
    (∀ (resp : HistResponse) (h : List HistPoint),
      get_historical_data_from_api base_currency target_currency days resp
        = some h →
      h ≠ [] →
      generate_historical_data base_currency target_currency days resp u vs
        today fmt tfmt = h) ∧
    (∀ resp : HistResponse,
      (get_historical_data_from_api base_currency target_currency days resp
          = none ∨
       get_historical_data_from_api base_currency target_currency days resp
          = some []) →
      generate_historical_data base_currency target_currency days resp u vs
          today fmt tfmt =
        ((List.range (days + 1)).map fun k =>
          ⟨fmt (today - ((days : Int) - (k : Int))),
           round4 (rawRate (synthSeed base_currency target_currency u) vs k),
           tfmt (today - ((days : Int) - (k : Int)))⟩)) ∧
    (base_currency = "USD" ∧ target_currency = "CNY" →
      synthSeed base_currency target_currency u = 699/100) ∧
    (¬(base_currency = "USD" ∧ target_currency = "CNY") →
      synthSeed base_currency target_currency u = 4/5 + (2/5) * u ∧
      (0 ≤ u → u < 1 →
        4/5 ≤ synthSeed base_currency target_currency u ∧
        synthSeed base_currency target_currency u ≤ 6/5)) ∧
    (rawRate (synthSeed base_currency target_currency u) vs 0 =
      synthSeed base_currency target_currency u + deltaOf vs 0) ∧
    (∀ k : Nat,
      rawRate (synthSeed base_currency target_currency u) vs (k + 1) =
      rawRate (synthSeed base_currency target_currency u) vs k +
        deltaOf vs (k + 1)) ∧
    (∀ k : Nat, 0 ≤ vs k → vs k < 1 →
      -(1/40) ≤ deltaOf vs k ∧ deltaOf vs k ≤ 1/40) := by
  have htn : (((days : Int)) + 1).toNat = days + 1 := by omega
  refine ⟨?_, ?_, ?_, ?_, rfl, fun k => rfl, ?_⟩
  · intro resp h hsome hne
    simp only [generate_historical_data, hsome]
    rw [if_neg hne]
  · intro resp hfail
    have hgen : generate_historical_data base_currency target_currency days
        resp u vs today fmt tfmt =
        genSynthetic base_currency target_currency days u vs today fmt tfmt := by
      rcases hfail with h | h <;> simp [generate_historical_data, h]
    rw [hgen, genSynthetic_eq, htn]
  · intro hp
    simp [synthSeed, hp]
  · intro hnp
    refine ⟨by simp [synthSeed, hnp], fun h0 h1 => ?_⟩
    constructor <;> simp [synthSeed, hnp] <;> nlinarith
  · intro k h0 h1
    unfold deltaOf
    constructor <;> nlinarith

/-- Witness for C7: for the pair (USD, CNY) the seed is 6.99; a draw of 3/4
gives a delta of 1/80 within [-1/40, 1/40]; and the second raw rate is the
first plus the second delta. -/
theorem C7_synthetic_walk_witness :
    synthSeed "USD" "CNY" (1/2) = 699/100 ∧
    (-(1/40) ≤ deltaOf (fun _ => 3/4) 0 ∧ deltaOf (fun _ => 3/4) 0 ≤ 1/40) ∧
    rawRate (synthSeed "USD" "CNY" (1/2)) (fun _ => 3/4) 1 =
      rawRate (synthSeed "USD" "CNY" (1/2)) (fun _ => 3/4) 0 +
        deltaOf (fun _ => 3/4) 1 :=
  ⟨(C7_synthetic_walk "USD" "CNY" 1 (1/2) (fun _ => 3/4) 0
      (fun i => toString i) (fun i => toString i)).2.2.1 ⟨rfl, rfl⟩,
   (C7_synthetic_walk "USD" "CNY" 1 (1/2) (fun _ => 3/4) 0
      (fun i => toString i) (fun i => toString i)).2.2.2.2.2.2 0
     (by norm_num) (by norm_num),
   (C7_synthetic_walk "USD" "CNY" 1 (1/2) (fun _ => 3/4) 0
      (fun i => toString i) (fun i => toString i)).2.2.2.2.2.1 0⟩

/-- C3, counterexample to the claim as stated: `/api/convert` with the
unsupported code XYZ does not reply HTTP 400 — it calls the provider chain
and, with all providers failing, replies 503 with a generic message that
does not name XYZ. -/
theorem C3_counterexample :
    CURRENCY_DATA.lookup "XYZ" = none ∧
    convert_amount "XYZ" "CNY" (.numeric 1) "2026-10-12"
      [ProviderResponse.timeout, ProviderResponse.timeout,
       ProviderResponse.timeout] = .err 503 "无法获取汇率数据" ∧
    (convert_amount "XYZ" "CNY" (.numeric 1) "2026-10-12"
      [ProviderResponse.timeout, ProviderResponse.timeout,
       ProviderResponse.timeout]).status ≠ 400 := by
  decide

/-- C3 (amended): the exchange-rate and historical handlers validate both
codes against the Currency Registry and, for a code outside it, respond
HTTP 400 (`success=false`) with an error naming the invalid code, without
contacting any provider (the reply does not depend on the provider
responses) and without touching the cache; the `/api/convert` handler
performs NO registry validation: with an invalid code and a positive amount
it still runs the provider chain, replying 503 when every provider fails,
or 500 (the `KeyError` path) when a provider does return a rate — never a
400 naming the code. -/
theorem C3_validation :
    (∀ (baseRaw targetRaw today : String) (cache : Cache) (now : Nat)
      (rs : List ProviderResponse),
      CURRENCY_DATA.lookup (pyUpper baseRaw) = none →
      (get_exchange_rate baseRaw targetRaw cache now today rs).1 =
        .err 400 ("不支持的基准货币: " ++ pyUpper baseRaw) ∧
      (get_exchange_rate baseRaw targetRaw cache now today rs).2 = cache ∧
      (∀ rs2 : List ProviderResponse,
        get_exchange_rate baseRaw targetRaw cache now today rs =
        get_exchange_rate baseRaw targetRaw cache now today rs2)) ∧
    (∀ (baseRaw targetRaw today : String) (cache : Cache) (now : Nat)
      (rs : List ProviderResponse) (binfo : CurrencyInfo),
      CURRENCY_DATA.lookup (pyUpper baseRaw) = some binfo →
      CURRENCY_DATA.lookup (pyUpper targetRaw) = none →
      (get_exchange_rate baseRaw targetRaw cache now today rs).1 =
        .err 400 ("不支持的目标货币: " ++ pyUpper targetRaw) ∧
      (get_exchange_rate baseRaw targetRaw cache now today rs).2 = cache ∧
      (∀ rs2 : List ProviderResponse,
        get_exchange_rate baseRaw targetRaw cache now today rs =
        get_exchange_rate baseRaw targetRaw cache now today rs2)) ∧
    (∀ (baseRaw targetRaw todayStr : String) (daysP : DaysParam)
      (rs : List ProviderResponse) (hresp : HistResponse) (u : ℚ)
      (vs : Nat → ℚ) (today : Int) (fmt tfmt : Int → String),
      CURRENCY_DATA.lookup (pyUpper baseRaw) = none →
      get_historical_data baseRaw targetRaw daysP rs hresp u vs today
        todayStr fmt tfmt =
        .err 400 ("不支持的基准货币: " ++ pyUpper baseRaw) ∧
      (∀ (rs2 : List ProviderResponse) (hresp2 : HistResponse),
        get_historical_data baseRaw targetRaw daysP rs hresp u vs today
          todayStr fmt tfmt =
        get_historical_data baseRaw targetRaw daysP rs2 hresp2 u vs today
          todayStr fmt tfmt)) ∧
    (∀ (baseRaw targetRaw todayStr : String) (daysP : DaysParam)
      (rs : List ProviderResponse) (hresp : HistResponse) (u : ℚ)
      (vs : Nat → ℚ) (today : Int) (fmt tfmt : Int → String)
      (binfo : CurrencyInfo),
      CURRENCY_DATA.lookup (pyUpper baseRaw) = some binfo →
      CURRENCY_DATA.lookup (pyUpper targetRaw) = none →
      get_historical_data baseRaw targetRaw daysP rs hresp u vs today
        todayStr fmt tfmt =
        .err 400 ("不支持的目标货币: " ++ pyUpper targetRaw) ∧
      (∀ (rs2 : List ProviderResponse) (hresp2 : HistResponse),
        get_historical_data baseRaw targetRaw daysP rs hresp u vs today
          todayStr fmt tfmt =
        get_historical_data baseRaw targetRaw daysP rs2 hresp2 u vs today
          todayStr fmt tfmt)) ∧
    (∀ (baseRaw targetRaw today : String) (q : ℚ)
      (r1 r2 r3 : ProviderResponse) (e1 e2 e3 : String),
      CURRENCY_DATA.lookup (pyUpper baseRaw) = none → 0 < q →
      tryProvider "ExchangeRate-API" (pyUpper targetRaw) today r1 = .error e1 →
      tryProvider "Frankfurter" (pyUpper targetRaw) today r2 = .error e2 →
      tryProvider "OpenExchangeRates" (pyUpper targetRaw) today r3 = .error e3 →
      convert_amount baseRaw targetRaw (.numeric q) today [r1, r2, r3] =
        .err 503 "无法获取汇率数据") ∧
    (∀ (baseRaw targetRaw today : String) (q : ℚ)
      (r1 r2 r3 : ProviderResponse) (e1 e2 e3 : String),
      CURRENCY_DATA.lookup (pyUpper targetRaw) = none → 0 < q →
      tryProvider "ExchangeRate-API" (pyUpper targetRaw) today r1 = .error e1 →
      tryProvider "Frankfurter" (pyUpper targetRaw) today r2 = .error e2 →
      tryProvider "OpenExchangeRates" (pyUpper targetRaw) today r3 = .error e3 →
      convert_amount baseRaw targetRaw (.numeric q) today [r1, r2, r3] =
        .err 503 "无法获取汇率数据") ∧
    (∀ (baseRaw targetRaw today : String) (q : ℚ)
      (rs : List ProviderResponse) (a : ApiResult),
      CURRENCY_DATA.lookup (pyUpper baseRaw) = none → 0 < q →
      get_exchange_rate_from_api (pyUpper baseRaw) (pyUpper targetRaw)
        today rs = some a →
      convert_amount baseRaw targetRaw (.numeric q) today rs =
        .err 500 ("转换失败: '" ++ pyUpper baseRaw ++ "'")) ∧
    (∀ (baseRaw targetRaw today : String) (q : ℚ)
      (rs : List ProviderResponse) (a : ApiResult) (binfo : CurrencyInfo),
      CURRENCY_DATA.lookup (pyUpper baseRaw) = some binfo →
      CURRENCY_DATA.lookup (pyUpper targetRaw) = none → 0 < q →
      get_exchange_rate_from_api (pyUpper baseRaw) (pyUpper targetRaw)
        today rs = some a →
      convert_amount baseRaw targetRaw (.numeric q) today rs =
        .err 500 ("转换失败: '" ++ pyUpper targetRaw ++ "'")) := by
  refine ⟨?_, ?_, ?_, ?_, ?_, ?_, ?_, ?_⟩
  · intro baseRaw targetRaw today cache now rs hL
    refine ⟨?_, ?_, fun rs2 => ?_⟩ <;> simp [get_exchange_rate, hL]
  · intro baseRaw targetRaw today cache now rs binfo hbL hL
    refine ⟨?_, ?_, fun rs2 => ?_⟩ <;> simp [get_exchange_rate, hbL, hL]
  · intro baseRaw targetRaw todayStr daysP rs hresp u vs today fmt tfmt hL
    refine ⟨?_, fun rs2 hresp2 => ?_⟩ <;> simp [get_historical_data, hL]
  · intro baseRaw targetRaw todayStr daysP rs hresp u vs today fmt tfmt
      binfo hbL hL
    refine ⟨?_, fun rs2 hresp2 => ?_⟩ <;>
      simp [get_historical_data, hbL, hL]
  · intro baseRaw targetRaw today q r1 r2 r3 e1 e2 e3 hL hq h1 h2 h3
    have hpair : ¬(pyUpper baseRaw = "USD" ∧ pyUpper targetRaw = "CNY") := by
      rintro ⟨hbu, _⟩
      rw [hbu] at hL
      exact absurd hL (by decide)
    have hapi : get_exchange_rate_from_api (pyUpper baseRaw)
        (pyUpper targetRaw) today [r1, r2, r3] = none := by
      simp [get_exchange_rate_from_api, apiNames, EXCHANGE_RATE_APIS,
        fetchLoop, h1, h2, h3, hpair]
    simp [convert_amount, parseAmount, hq.not_le, hapi]
  · intro baseRaw targetRaw today q r1 r2 r3 e1 e2 e3 hL hq h1 h2 h3
    have hpair : ¬(pyUpper baseRaw = "USD" ∧ pyUpper targetRaw = "CNY") := by
      rintro ⟨_, htu⟩
      rw [htu] at hL
      exact absurd hL (by decide)
    have hapi : get_exchange_rate_from_api (pyUpper baseRaw)
        (pyUpper targetRaw) today [r1, r2, r3] = none := by
      simp [get_exchange_rate_from_api, apiNames, EXCHANGE_RATE_APIS,
        fetchLoop, h1, h2, h3, hpair]
    simp [convert_amount, parseAmount, hq.not_le, hapi]
  · intro baseRaw targetRaw today q rs a hL hq hapi
    simp [convert_amount, parseAmount, hq.not_le, hapi, hL]
  · intro baseRaw targetRaw today q rs a binfo hbL hL hq hapi
    simp [convert_amount, parseAmount, hq.not_le, hapi, hbL, hL]

/-- Witness for C3: base XYZ on `/api/exchange_rate` is rejected with a 400
naming XYZ and the cache is left unchanged; target XYZ on
`/api/historical` is rejected with a 400 naming XYZ. -/
theorem C3_validation_witness :
    (get_exchange_rate "XYZ" "CNY" (fun _ => none) 0 "2026-10-12" []).1 =
      .err 400 ("不支持的基准货币: " ++ pyUpper "XYZ") ∧
    (get_exchange_rate "XYZ" "CNY" (fun _ => none) 0 "2026-10-12" []).2 =
      (fun _ => none) ∧
    get_historical_data "USD" "XYZ" .missing [] .failure 0 (fun _ => 0) 0
      "2026-10-12" (fun i => toString i) (fun i => toString i) =
      .err 400 ("不支持的目标货币: " ++ pyUpper "XYZ") :=
  ⟨(C3_validation.1 "XYZ" "CNY" "2026-10-12" (fun _ => none) 0 []
      (by decide)).1,
   (C3_validation.1 "XYZ" "CNY" "2026-10-12" (fun _ => none) 0 []
      (by decide)).2.1,
   (C3_validation.2.2.2.1 "USD" "XYZ" "2026-10-12" .missing [] .failure 0
      (fun _ => 0) 0 (fun i => toString i) (fun i => toString i)
      ⟨"United States Dollar", "🇺🇸"⟩ (by decide) (by decide)).1⟩

/-- C2: when every provider fails, the fetch returns the demo quote
(rate 6.99, source `默认汇率(演示)`) for exactly the pair (USD, CNY), and
`None` for every other pair, in which case the `/api/exchange_rate` handler
(valid codes, cache miss) replies HTTP 503 with `success=false`. -/
theorem C2_all_fail_fallback (base_currency target_currency today : String)
    (r1 r2 r3 : ProviderResponse) (e1 e2 e3 : String)
    (h1 : tryProvider "ExchangeRate-API" target_currency today r1 = .error e1)
    (h2 : tryProvider "Frankfurter" target_currency today r2 = .error e2)
    (h3 : tryProvider "OpenExchangeRates" target_currency today r3 = .error e3) :
    (base_currency = "USD" ∧ target_currency = "CNY" →
      get_exchange_rate_from_api base_currency target_currency today
        [r1, r2, r3] = some ⟨699/100, today, "默认汇率(演示)"⟩) ∧
    (¬(base_currency = "USD" ∧ target_currency = "CNY") →
      get_exchange_rate_from_api base_currency target_currency today
        [r1, r2, r3] = none) ∧
    (∀ (baseRaw targetRaw : String) (cache : Cache) (now : Nat)
      (binfo tinfo : CurrencyInfo),
      pyUpper baseRaw = base_currency → pyUpper targetRaw = target_currency →
      ¬(base_currency = "USD" ∧ target_currency = "CNY") →
      CURRENCY_DATA.lookup base_currency = some binfo →
      CURRENCY_DATA.lookup target_currency = some tinfo →
      get_cached_rate cache now base_currency target_currency = none →
      (get_exchange_rate baseRaw targetRaw cache now today [r1, r2, r3]).1 =
        .err 503 "无法从任何汇率API获取数据" ∧
      ((get_exchange_rate baseRaw targetRaw cache now today [r1, r2, r3]).1).status
        = 503 ∧
      ((get_exchange_rate baseRaw targetRaw cache now today [r1, r2, r3]).1).success
        = false) := by
  have hloop :
      (fetchLoop target_currency today (apiNames.zip [r1, r2, r3]) []).1 = none := by
    simp [apiNames, EXCHANGE_RATE_APIS, fetchLoop, h1, h2, h3]
  refine ⟨?_, ?_, ?_⟩
  · rintro ⟨hb, ht⟩
    subst hb ht
    simp [get_exchange_rate_from_api, hloop]
  · intro hne
    simp [get_exchange_rate_from_api, hloop, hne]
  · intro baseRaw targetRaw cache now binfo tinfo hbu htu hne hbL htL hc
    have hapi :
        get_exchange_rate_from_api base_currency target_currency today
          [r1, r2, r3] = none := by
      simp [get_exchange_rate_from_api, hloop, hne]
    refine ⟨?_, ?_, ?_⟩ <;>
      simp [get_exchange_rate, hbu, htu, hbL, htL, hc, hapi,
        RateReply.status, RateReply.success]

/-- Witness for C2: EUR→GBP with all three providers failing, an empty
cache: the handler answers 503. -/
theorem C2_all_fail_fallback_witness :
    (get_exchange_rate "EUR" "GBP" (fun _ => none) 1000 "2026-10-12"
      [ProviderResponse.timeout, ProviderResponse.connError,
       ProviderResponse.httpStatus 429]).1 =
      .err 503 "无法从任何汇率API获取数据" ∧
    ((get_exchange_rate "EUR" "GBP" (fun _ => none) 1000 "2026-10-12"
      [ProviderResponse.timeout, ProviderResponse.connError,
       ProviderResponse.httpStatus 429]).1).status = 503 ∧
    ((get_exchange_rate "EUR" "GBP" (fun _ => none) 1000 "2026-10-12"
      [ProviderResponse.timeout, ProviderResponse.connError,
       ProviderResponse.httpStatus 429]).1).success = false :=
  (C2_all_fail_fallback "EUR" "GBP" "2026-10-12" ProviderResponse.timeout
      ProviderResponse.connError (ProviderResponse.httpStatus 429)
      "ExchangeRate-API: 请求超时" "Frankfurter: 连接错误"
      "OpenExchangeRates: HTTP 429" rfl rfl rfl).2.2
    "EUR" "GBP" (fun _ => none) 1000 ⟨"Euro", "🇪🇺"⟩ ⟨"British Pound", "🇬🇧"⟩
    (by decide) (by decide) (by decide) (by decide) (by decide) rfl
